import Mathlib

/-!
Shallow embedding of the student-registration CRUD service:
the Express route handlers of `server.js` (register, login, profile,
students create/list/update/delete), the SQLite table created in `db.js`
(`email TEXT UNIQUE`, `id INTEGER PRIMARY KEY AUTOINCREMENT`), the
in-memory `sessions` object, and the frontend form hook
`useStudentForms.tsx`.

Database rows are a list of records plus the AUTOINCREMENT counter;
`db.run`/`db.get` callbacks become pure functions returning the new table
and the HTTP response.  The SQLite UNIQUE constraint on `email` is part of
the model: an UPDATE whose new email collides with a different row aborts
with an error (the handler's 500 "Update error" branch), exactly as the
embedded engine behaves on `email TEXT UNIQUE`.
-/

namespace StudentApp

/-- A row of the `students` table (`db.js`): id assigned by
AUTOINCREMENT, six TEXT columns. -/
structure Student where
  id : Nat
  firstName : String
  lastName : String
  username : String
  email : String
  contact : String
  password : String
deriving Repr, DecidableEq

/-- The `students` table: its rows plus the AUTOINCREMENT sequence
counter (the next id is `seq + 1`; `this.lastID` after an insert). -/
structure DB where
  rows : List Student
  seq : Nat
deriving Repr, DecidableEq

/-- Request body shared by register / students-create / students-update,
and the shape of the frontend form state (`useStudentForms.tsx`). -/
structure StudentReq where
  firstName : String
  lastName : String
  username : String
  email : String
  contact : String
  password : String
deriving Repr, DecidableEq

/-- `SELECT * FROM students WHERE email = ?` via `db.get`: first matching
row, if any. -/
def findByEmail (db : DB) (em : String) : Option Student :=
  db.rows.find? (fun s => s.email == em)

/-- `INSERT INTO students ... VALUES (?,?,?,?,?,?)`: appends a row with
the next AUTOINCREMENT id and returns it together with `this.lastID`.
(Both insert call sites run only after the email-uniqueness `db.get`
check, so the UNIQUE constraint cannot fire here.) -/
def dbInsert (db : DB) (fn ln un em ct pw : String) : DB × Nat :=
  let newId := db.seq + 1
  (⟨db.rows ++ [⟨newId, fn, ln, un, em, ct, pw⟩], newId⟩, newId)

/-- Model of `bcrypt.hash(password, SALT_ROUNDS)`: an executable stand-in
for the one-way hash; all the handlers need is that the stored digest is
the deterministic image of the plaintext and differs from it. -/
def bcryptHash (pw : String) : String :=
  "bcrypt10$" ++ pw

/-- Model of `bcrypt.compare(password, storedHash)`: verification succeeds
exactly when the stored digest is the hash of the supplied plaintext. -/
def bcryptCompare (pw stored : String) : Bool :=
  stored == bcryptHash pw

/-- The in-memory `sessions` object: later `sessions[token] = email`
writes are consed in front, so the front-most binding for a token wins,
matching JS property assignment/lookup. -/
abbrev Sessions := List (String × String)

/-- `sessions[token]`: the current binding for `token`, if any. -/
def lookupSession (ss : Sessions) (tok : String) : Option String :=
  (ss.find? (fun p => p.1 == tok)).map (fun p => p.2)

/-- Process state visible to the handlers: the SQLite table and the
in-memory session map. -/
structure ServerState where
  db : DB
  sessions : Sessions
deriving Repr, DecidableEq

/-- JSON response bodies the handlers produce. -/
inductive Body where
  | msg (m : String)
  | msgId (m : String) (id : Nat)
  | token (t : String)
  | profile (s : Student)
  | studentList (l : List (Nat × String × String × String × String))
deriving Repr, DecidableEq

/-- An HTTP response: status code (200 for the bare `res.json`) and JSON
body. -/
structure Response where
  status : Nat
  body : Body
deriving Repr, DecidableEq

/-- `POST /api/register`: email-uniqueness check via `db.get`; on
conflict 400 "User already exists" with no write; otherwise insert with
the bcrypt digest in place of the plaintext password and answer with the
new id. -/
def register (db : DB) (r : StudentReq) : DB × Response :=
  match findByEmail db r.email with
  | some _ => (db, ⟨400, .msg "User already exists"⟩)
  | none =>
    let (db', newId) :=
      dbInsert db r.firstName r.lastName r.username r.email r.contact
        (bcryptHash r.password)
    (db', ⟨200, .msgId "Registered successfully" newId⟩)

/-- The token minted on successful login: `` `${email}-${Date.now()}` ``. -/
def mkToken (em : String) (now : Nat) : String :=
  em ++ "-" ++ toString now

/-- `POST /api/login`: look up the record by email; absent → 401
"Invalid credentials"; present but `bcrypt.compare` fails → the same 401;
on match mint `email-now`, store token→email in `sessions`, return the
token. -/
def login (st : ServerState) (em pw : String) (now : Nat) :
    ServerState × Response :=
  match findByEmail st.db em with
  | none => (st, ⟨401, .msg "Invalid credentials"⟩)
  | some user =>
    if bcryptCompare pw user.password then
      let tok := mkToken em now
      ({ st with sessions := (tok, em) :: st.sessions }, ⟨200, .token tok⟩)
    else
      (st, ⟨401, .msg "Invalid credentials"⟩)

/-- `GET /api/profile`: token from the Authorization header; unknown
token → 401 "Unauthorized"; known token whose `db.get` errors (`dbFail`)
→ 500 "DB error"; email no longer stored → 404 "User not found";
otherwise the full stored row.  The handler never writes, so the state is
returned untouched. -/
def profile (st : ServerState) (tok : String) (dbFail : Bool) :
    ServerState × Response :=
  match lookupSession st.sessions tok with
  | none => (st, ⟨401, .msg "Unauthorized"⟩)
  | some em =>
    if dbFail then (st, ⟨500, .msg "DB error"⟩)
    else
      match findByEmail st.db em with
      | none => (st, ⟨404, .msg "User not found"⟩)
      | some user => (st, ⟨200, .profile user⟩)

/-- `POST /api/students`: same uniqueness check as register (400
"Student already exists" on conflict), but the plaintext password is
inserted verbatim. -/
def createStudent (db : DB) (r : StudentReq) : DB × Response :=
  match findByEmail db r.email with
  | some _ => (db, ⟨400, .msg "Student already exists"⟩)
  | none =>
    let (db', newId) :=
      dbInsert db r.firstName r.lastName r.username r.email r.contact
        r.password
    (db', ⟨200, .msgId "Student inserted" newId⟩)

/-- The projection `SELECT id, firstName, lastName, email, contact` of a
row: password excluded. -/
def project (s : Student) : Nat × String × String × String × String :=
  (s.id, s.firstName, s.lastName, s.email, s.contact)

/-- `GET /api/students`: every row, projected to
(id, firstName, lastName, email, contact). -/
def listStudents (db : DB) : Response :=
  ⟨200, .studentList (db.rows.map project)⟩

/-- Overwrite of the six SET columns of `UPDATE students SET ... WHERE
id = ?`; the id column is not in the SET list and stays. -/
def overwriteRow (s : Student) (r : StudentReq) : Student :=
  { s with firstName := r.firstName, lastName := r.lastName,
           username := r.username, email := r.email,
           contact := r.contact, password := r.password }

/-- `PUT /api/students/:id`: `db.run` the UPDATE.  The statement aborts
on the `email TEXT UNIQUE` constraint — it errors (500 "Update error",
nothing written) exactly when a row with this id exists and a different
row already holds the new email.  Otherwise the matching row (if any) is
overwritten and the handler reports success, with no existence check. -/
def updateStudent (db : DB) (id : Nat) (r : StudentReq) : DB × Response :=
  if db.rows.any (fun s => s.id == id) &&
      db.rows.any (fun s => !(s.id == id) && s.email == r.email) then
    (db, ⟨500, .msg "Update error"⟩)
  else
    ({ db with
        rows := db.rows.map (fun s => if s.id == id then overwriteRow s r else s) },
     ⟨200, .msg "Student updated successfully"⟩)

/-- `DELETE /api/students/:id`: remove the matching row; success is
reported whether or not a row matched. -/
def deleteStudent (db : DB) (id : Nat) : DB × Response :=
  ({ db with rows := db.rows.filter (fun s => !(s.id == id)) },
   ⟨200, .msg "Deleted successfully"⟩)

/-- One client-visible operation against the running service. -/
inductive Op where
  | opRegister (r : StudentReq)
  | opLogin (em pw : String) (now : Nat)
  | opProfile (tok : String) (dbFail : Bool)
  | opCreate (r : StudentReq)
  | opList
  | opUpdate (id : Nat) (r : StudentReq)
  | opDelete (id : Nat)
deriving Repr, DecidableEq

/-- Dispatch of one request to its route handler: the next process state
and the response. -/
def step (st : ServerState) (op : Op) : ServerState × Response :=
  match op with
  | .opRegister r =>
    let (db', resp) := register st.db r
    ({ st with db := db' }, resp)
  | .opLogin em pw now => login st em pw now
  | .opProfile tok dbFail => profile st tok dbFail
  | .opCreate r =>
    let (db', resp) := createStudent st.db r
    ({ st with db := db' }, resp)
  | .opList => (st, listStudents st.db)
  | .opUpdate id r =>
    let (db', resp) := updateStudent st.db id r
    ({ st with db := db' }, resp)
  | .opDelete id =>
    let (db', resp) := deleteStudent st.db id
    ({ st with db := db' }, resp)

/-- The state after serving a sequence of requests. -/
def run (st : ServerState) (ops : List Op) : ServerState :=
  ops.foldl (fun s op => (step s op).1) st

/-- Fresh process over the idempotently created empty table. -/
def initState : ServerState := ⟨⟨[], 0⟩, []⟩

/-- The stored records have pairwise distinct emails. -/
def EmailsDistinct (db : DB) : Prop :=
  db.rows.Pairwise (fun a b => a.email ≠ b.email)

/-- Well-formed table: pairwise distinct emails (the UNIQUE column),
pairwise distinct ids (INTEGER PRIMARY KEY), and every id within the
AUTOINCREMENT counter. -/
def WF (db : DB) : Prop :=
  EmailsDistinct db ∧ db.rows.Pairwise (fun a b => a.id ≠ b.id) ∧
    ∀ s ∈ db.rows, s.id ≤ db.seq

instance (db : DB) : Decidable (EmailsDistinct db) := by
  unfold EmailsDistinct; infer_instance

instance (db : DB) : Decidable (WF db) := by
  unfold WF; exact instDecidableAnd

/-- The row inserted for a fresh email, for either insert path. -/
def insertedRow (db : DB) (fn ln un em ct pw : String) : Student :=
  ⟨db.seq + 1, fn, ln, un, em, ct, pw⟩

/-- The two `useStudents` operations `handleSubmit` can dispatch to. -/
inductive SubmitAction where
  | add (s : StudentReq)
  | update (id : Nat) (s : StudentReq)
deriving Repr, DecidableEq

/-- The initial and cleared form state of `useStudentForm`: every field
the empty string. -/
def emptyForm : StudentReq := ⟨"", "", "", "", "", ""⟩

/-- `handleSubmit` of `useStudentForms.tsx`: dispatches to update when
`editId` is non-null and to add otherwise, then `resetForm` runs
unconditionally — `addStudent` and `updateStudent` catch their own
errors, so the awaited call never throws and the network outcome `netOk`
is never consulted.  Result: the dispatched action and the new
(form, editId) pair. -/
def handleSubmit (form : StudentReq) (editId : Option Nat) (netOk : Bool) :
    SubmitAction × StudentReq × Option Nat :=
  match editId with
  | some id => (.update id form, emptyForm, none)
  | none => (.add form, emptyForm, none)

/-! Concrete fixtures used by the witness theorems. -/

/-- A concrete registration request. -/
def reqA : StudentReq :=
  ⟨"Ada", "Lovelace", "ada", "ada@example.com", "0917", "pw1"⟩

/-- A second concrete request with a different email. -/
def reqB : StudentReq :=
  ⟨"Bob", "Byrne", "bob", "bob@example.com", "0918", "pw2"⟩

/-- A request whose email collides with no row of `dbAB`. -/
def reqC : StudentReq :=
  ⟨"Cleo", "Cruz", "cleo", "cleo@example.com", "0919", "pw3"⟩

/-- The row the register path stores for `reqA` on an empty table. -/
def rowA : Student :=
  ⟨1, "Ada", "Lovelace", "ada", "ada@example.com", "0917", bcryptHash "pw1"⟩

/-- A one-row table holding `rowA`. -/
def dbA : DB := ⟨[rowA], 1⟩

/-- A two-row table with distinct ids and emails. -/
def dbAB : DB :=
  ⟨[rowA, ⟨2, "Bob", "Byrne", "bob", "bob@example.com", "0918", "pw2"⟩], 2⟩

lemma findByEmail_eq_none {db : DB} {em : String} :
    findByEmail db em = none ↔ ∀ s ∈ db.rows, s.email ≠ em := by
  simp [findByEmail, List.find?_eq_none]

lemma WF_dbInsert (db : DB) (fn ln un em ct pw : String) (h : WF db)
    (hfresh : ∀ s ∈ db.rows, s.email ≠ em) :
    WF (dbInsert db fn ln un em ct pw).1 := by
  obtain ⟨he, hi, hb⟩ := h
  refine ⟨?_, ?_, ?_⟩
  · unfold EmailsDistinct at he ⊢
    simp only [dbInsert, List.pairwise_append, List.pairwise_singleton]
    refine ⟨he, trivial, ?_⟩
    intro a ha b hbm
    simp only [List.mem_singleton] at hbm
    subst hbm
    exact hfresh a ha
  · simp only [dbInsert, List.pairwise_append, List.pairwise_singleton]
    refine ⟨hi, trivial, ?_⟩
    intro a ha b hbm
    simp only [List.mem_singleton] at hbm
    subst hbm
    have := hb a ha
    simp only []
    omega
  · intro s hs
    simp only [dbInsert, List.mem_append, List.mem_singleton] at hs
    rcases hs with hs | hs
    · have := hb s hs
      simp only [dbInsert]
      omega
    · subst hs; simp [dbInsert]

lemma WF_register (db : DB) (r : StudentReq) (h : WF db) :
    WF (register db r).1 := by
  cases hfind : findByEmail db r.email with
  | some u => simp [register, hfind, h]
  | none =>
    rw [findByEmail_eq_none] at hfind
    have hins := WF_dbInsert db r.firstName r.lastName r.username r.email
      r.contact (bcryptHash r.password) h hfind
    simp only [register]
    rw [findByEmail_eq_none.2 hfind]
    exact hins

lemma WF_createStudent (db : DB) (r : StudentReq) (h : WF db) :
    WF (createStudent db r).1 := by
  cases hfind : findByEmail db r.email with
  | some u => simp [createStudent, hfind, h]
  | none =>
    rw [findByEmail_eq_none] at hfind
    have hins := WF_dbInsert db r.firstName r.lastName r.username r.email
      r.contact r.password h hfind
    simp only [createStudent]
    rw [findByEmail_eq_none.2 hfind]
    exact hins

lemma overwriteRow_id (s : Student) (r : StudentReq) :
    (overwriteRow s r).id = s.id := rfl

lemma updateRow_id (s : Student) (id : Nat) (r : StudentReq) :
    (if s.id == id then overwriteRow s r else s).id = s.id := by
  split <;> rfl

lemma WF_updateStudent (db : DB) (id : Nat) (r : StudentReq) (h : WF db) :
    WF (updateStudent db id r).1 := by
  obtain ⟨he, hi, hb⟩ := h
  unfold updateStudent
  by_cases hg : (db.rows.any (fun s => s.id == id) &&
      db.rows.any (fun s => !(s.id == id) && s.email == r.email)) = true
  · rw [if_pos hg]; exact ⟨he, hi, hb⟩
  · rw [if_neg hg]
    simp only [Bool.and_eq_true, List.any_eq_true, beq_iff_eq, Bool.not_eq_eq_eq_not,
      Bool.not_true, not_and, not_exists, beq_eq_false_iff_ne] at hg
    refine ⟨?_, ?_, ?_⟩
    · unfold EmailsDistinct at he ⊢
      rw [List.pairwise_map]
      refine (hi.and he).imp_of_mem ?_
      intro a b ha hbm hab
      obtain ⟨hid, hem⟩ := hab
      by_cases hA : a.id = id <;> by_cases hB : b.id = id
      · exact absurd (hA.trans hB.symm) hid
      · have hbe : b.email ≠ r.email := by
          have := hg ⟨a, ha, by simp [hA]⟩ b hbm
          simpa [hB] using this
        simp [hA, hB, overwriteRow]
        exact fun hcon => hbe hcon.symm
      · have hae : a.email ≠ r.email := by
          have := hg ⟨b, hbm, by simp [hB]⟩ a ha
          simpa [hA] using this
        simp [hA, hB, overwriteRow]
        exact hae
      · simp [hA, hB]
        exact hem
    · rw [List.pairwise_map]
      refine hi.imp_of_mem ?_
      intro a b _ _ hab
      rw [updateRow_id, updateRow_id]
      exact hab
    · intro s hs
      simp only [List.mem_map] at hs
      obtain ⟨a, ha, rfl⟩ := hs
      rw [updateRow_id]
      exact hb a ha

lemma WF_deleteStudent (db : DB) (id : Nat) (h : WF db) :
    WF (deleteStudent db id).1 := by
  obtain ⟨he, hi, hb⟩ := h
  refine ⟨he.filter _, hi.filter _, ?_⟩
  intro s hs
  simp only [deleteStudent, List.mem_filter] at hs
  exact hb s hs.1

lemma login_db (st : ServerState) (em pw : String) (now : Nat) :
    (login st em pw now).1.db = st.db := by
  unfold login
  split
  · rfl
  · split <;> rfl

lemma profile_state (st : ServerState) (tok : String) (dbFail : Bool) :
    (profile st tok dbFail).1 = st := by
  unfold profile
  split
  · rfl
  · split
    · rfl
    · split <;> rfl

lemma WF_step (st : ServerState) (op : Op) (h : WF st.db) :
    WF (step st op).1.db := by
  cases op with
  | opRegister r => exact WF_register st.db r h
  | opLogin em pw now =>
    simp only [step]
    rw [login_db]
    exact h
  | opProfile tok dbFail =>
    simp only [step]
    rw [profile_state]
    exact h
  | opCreate r => exact WF_createStudent st.db r h
  | opList => exact h
  | opUpdate id r => exact WF_updateStudent st.db id r h
  | opDelete id => exact WF_deleteStudent st.db id h

lemma WF_run (st : ServerState) (ops : List Op) (h : WF st.db) :
    WF (run st ops).db := by
  induction ops generalizing st with
  | nil => exact h
  | cons op ops ih =>
    exact ih (step st op).1 (WF_step st op h)

lemma dbInsert_rows (db : DB) (fn ln un em ct pw : String) :
    (dbInsert db fn ln un em ct pw).1.rows =
      db.rows ++ [insertedRow db fn ln un em ct pw] := rfl

lemma register_found {db : DB} {r : StudentReq} {u : Student}
    (h : findByEmail db r.email = some u) :
    register db r = (db, ⟨400, .msg "User already exists"⟩) := by
  unfold register; rw [h]

lemma register_fresh {db : DB} {r : StudentReq}
    (h : findByEmail db r.email = none) :
    register db r =
      ((dbInsert db r.firstName r.lastName r.username r.email r.contact
          (bcryptHash r.password)).1,
        ⟨200, .msgId "Registered successfully" (db.seq + 1)⟩) := by
  unfold register; rw [h]; rfl

lemma createStudent_found {db : DB} {r : StudentReq} {u : Student}
    (h : findByEmail db r.email = some u) :
    createStudent db r = (db, ⟨400, .msg "Student already exists"⟩) := by
  unfold createStudent; rw [h]

lemma createStudent_fresh {db : DB} {r : StudentReq}
    (h : findByEmail db r.email = none) :
    createStudent db r =
      ((dbInsert db r.firstName r.lastName r.username r.email r.contact
          r.password).1,
        ⟨200, .msgId "Student inserted" (db.seq + 1)⟩) := by
  unfold createStudent; rw [h]; rfl

lemma findByEmail_insert_self (db : DB) (fn ln un em ct pw : String)
    (h : findByEmail db em = none) :
    findByEmail (dbInsert db fn ln un em ct pw).1 em =
      some (insertedRow db fn ln un em ct pw) := by
  unfold findByEmail at h ⊢
  rw [dbInsert_rows, List.find?_append, h]
  simp [insertedRow]

lemma login_no_user {st : ServerState} {em pw : String} {now : Nat}
    (h : findByEmail st.db em = none) :
    login st em pw now = (st, ⟨401, .msg "Invalid credentials"⟩) := by
  unfold login; rw [h]

lemma login_bad_password {st : ServerState} {em pw : String} {now : Nat}
    {u : Student} (h : findByEmail st.db em = some u)
    (hpw : bcryptCompare pw u.password = false) :
    login st em pw now = (st, ⟨401, .msg "Invalid credentials"⟩) := by
  unfold login; rw [h]; simp [hpw]

lemma login_good_password {st : ServerState} {em pw : String} {now : Nat}
    {u : Student} (h : findByEmail st.db em = some u)
    (hpw : bcryptCompare pw u.password = true) :
    login st em pw now =
      ({ st with sessions := (mkToken em now, em) :: st.sessions },
        ⟨200, .token (mkToken em now)⟩) := by
  unfold login; rw [h]; simp [hpw]

lemma profile_no_token {st : ServerState} {tok : String} {dbFail : Bool}
    (h : lookupSession st.sessions tok = none) :
    profile st tok dbFail = (st, ⟨401, .msg "Unauthorized"⟩) := by
  unfold profile; rw [h]

lemma profile_db_error {st : ServerState} {tok em : String}
    (h : lookupSession st.sessions tok = some em) :
    profile st tok true = (st, ⟨500, .msg "DB error"⟩) := by
  unfold profile; rw [h]; simp

lemma profile_no_record {st : ServerState} {tok em : String}
    (h : lookupSession st.sessions tok = some em)
    (hdb : findByEmail st.db em = none) :
    profile st tok false = (st, ⟨404, .msg "User not found"⟩) := by
  unfold profile; rw [h]; simp [hdb]

lemma profile_found {st : ServerState} {tok em : String} {u : Student}
    (h : lookupSession st.sessions tok = some em)
    (hdb : findByEmail st.db em = some u) :
    profile st tok false = (st, ⟨200, .profile u⟩) := by
  unfold profile; rw [h]; simp [hdb]

/-- C1: email uniqueness is an invariant of the student table — any
sequence of operations from a well-formed state keeps stored emails
pairwise distinct; both insert paths reject a duplicate email with 400
and no write; registering a fresh email succeeds, adds exactly one row,
and an immediate second registration with the same email gets the 400
Conflict. -/
theorem email_uniqueness_invariant
    (st : ServerState) (ops : List Op) (hwf : WF st.db)
    (db₁ : DB) (r₁ : StudentReq) (u₁ : Student)
    (h₁ : findByEmail db₁ r₁.email = some u₁)
    (db₂ : DB) (r₂ : StudentReq)
    (h₂ : findByEmail db₂ r₂.email = none) :
    EmailsDistinct (run st ops).db ∧
    register db₁ r₁ = (db₁, ⟨400, .msg "User already exists"⟩) ∧
    createStudent db₁ r₁ = (db₁, ⟨400, .msg "Student already exists"⟩) ∧
    (register db₂ r₂).2.status = 200 ∧
    (register db₂ r₂).1.rows.length = db₂.rows.length + 1 ∧
    register (register db₂ r₂).1 r₂ =
      ((register db₂ r₂).1, ⟨400, .msg "User already exists"⟩) := by
  refine ⟨(WF_run st ops hwf).1, register_found h₁, createStudent_found h₁,
    ?_, ?_, ?_⟩
  · rw [register_fresh h₂]
  · rw [register_fresh h₂, dbInsert_rows]
    simp
  · exact register_found (by
      rw [register_fresh h₂]
      exact findByEmail_insert_self db₂ r₂.firstName r₂.lastName r₂.username
        r₂.email r₂.contact (bcryptHash r₂.password) h₂)

/-- Witness for C1 at concrete inputs: one registration from the fresh
process, a duplicate insert against `dbA`, and a fresh registration
against the empty table. -/
theorem email_uniqueness_invariant_witness :
    EmailsDistinct (run initState [Op.opRegister reqA]).db ∧
    register dbA reqA = (dbA, ⟨400, .msg "User already exists"⟩) ∧
    createStudent dbA reqA = (dbA, ⟨400, .msg "Student already exists"⟩) ∧
    (register ⟨[], 0⟩ reqB).2.status = 200 ∧
    (register ⟨[], 0⟩ reqB).1.rows.length = ([] : List Student).length + 1 ∧
    register (register ⟨[], 0⟩ reqB).1 reqB =
      ((register ⟨[], 0⟩ reqB).1, ⟨400, .msg "User already exists"⟩) :=
  email_uniqueness_invariant initState [Op.opRegister reqA] (by decide)
    dbA reqA rowA (by decide) ⟨[], 0⟩ reqB (by decide)

/-- C2: the login failure for an unknown email and the failure for a
known email with a non-verifying password are the same response — 401
with the same generic body — and neither failure touches the state, so a
caller cannot tell the two cases apart. -/
theorem login_failures_indistinguishable
    (st₁ st₂ : ServerState) (em₁ pw₁ em₂ pw₂ : String) (n₁ n₂ : Nat)
    (u : Student)
    (h₁ : findByEmail st₁.db em₁ = none)
    (h₂ : findByEmail st₂.db em₂ = some u)
    (h₃ : bcryptCompare pw₂ u.password = false) :
    (login st₁ em₁ pw₁ n₁).2 = (login st₂ em₂ pw₂ n₂).2 ∧
    (login st₁ em₁ pw₁ n₁).2 = ⟨401, .msg "Invalid credentials"⟩ ∧
    (login st₁ em₁ pw₁ n₁).1 = st₁ ∧
    (login st₂ em₂ pw₂ n₂).1 = st₂ := by
  rw [login_no_user h₁, login_bad_password h₂ h₃]
  exact ⟨rfl, rfl, rfl, rfl⟩

/-- Witness for C2: unknown email against the empty-table state versus
wrong password against `dbA`. -/
theorem login_failures_indistinguishable_witness :
    (login ⟨⟨[], 0⟩, []⟩ "ada@example.com" "pw1" 5).2 =
      (login ⟨dbA, []⟩ "ada@example.com" "wrong" 6).2 ∧
    (login ⟨⟨[], 0⟩, []⟩ "ada@example.com" "pw1" 5).2 =
      ⟨401, .msg "Invalid credentials"⟩ ∧
    (login ⟨⟨[], 0⟩, []⟩ "ada@example.com" "pw1" 5).1 = ⟨⟨[], 0⟩, []⟩ ∧
    (login ⟨dbA, []⟩ "ada@example.com" "wrong" 6).1 = ⟨dbA, []⟩ :=
  login_failures_indistinguishable ⟨⟨[], 0⟩, []⟩ ⟨dbA, []⟩
    "ada@example.com" "pw1" "ada@example.com" "wrong" 5 6 rowA
    (by decide) (by decide) (by decide)

/-- C7: a successful login returns exactly the token `email-now`, binds
that token to the email in the session map, changes no other session
binding, and leaves the table alone. -/
theorem login_success_mints_token
    (st : ServerState) (em pw : String) (now : Nat) (u : Student)
    (h : findByEmail st.db em = some u)
    (hpw : bcryptCompare pw u.password = true) :
    (login st em pw now).2 = ⟨200, .token (mkToken em now)⟩ ∧
    mkToken em now = em ++ "-" ++ toString now ∧
    lookupSession (login st em pw now).1.sessions (mkToken em now) =
      some em ∧
    (∀ t, t ≠ mkToken em now →
      lookupSession (login st em pw now).1.sessions t =
        lookupSession st.sessions t) ∧
    (login st em pw now).1.db = st.db := by
  rw [login_good_password h hpw]
  refine ⟨rfl, rfl, ?_, ?_, rfl⟩
  · unfold lookupSession
    rw [List.find?_cons_of_pos _ (by simp)]
    rfl
  · intro t ht
    unfold lookupSession
    rw [List.find?_cons_of_neg _ (by simpa using fun hc => absurd hc.symm ht)]

/-- Witness for C7: a concrete successful login against `dbA`. -/
theorem login_success_mints_token_witness :
    (login ⟨dbA, [("old-1", "x@y.z")]⟩ "ada@example.com" "pw1" 7).2 =
      ⟨200, .token (mkToken "ada@example.com" 7)⟩ ∧
    mkToken "ada@example.com" 7 = "ada@example.com" ++ "-" ++ toString 7 ∧
    lookupSession (login ⟨dbA, [("old-1", "x@y.z")]⟩ "ada@example.com" "pw1" 7).1.sessions
      (mkToken "ada@example.com" 7) = some "ada@example.com" ∧
    (∀ t, t ≠ mkToken "ada@example.com" 7 →
      lookupSession (login ⟨dbA, [("old-1", "x@y.z")]⟩ "ada@example.com" "pw1" 7).1.sessions t =
        lookupSession [("old-1", "x@y.z")] t) ∧
    (login ⟨dbA, [("old-1", "x@y.z")]⟩ "ada@example.com" "pw1" 7).1.db = dbA :=
  login_success_mints_token ⟨dbA, [("old-1", "x@y.z")]⟩
    "ada@example.com" "pw1" 7 rowA (by decide) (by decide)

/-- C10: a profile request whose token is in the session map but whose
storage lookup errors returns 500 with the DB-error body — a status the
interface table for /api/profile does not list — and the state, in
particular the session map, is unchanged. -/
theorem profile_db_failure_returns_500
    (st : ServerState) (tok em : String)
    (h : lookupSession st.sessions tok = some em) :
    (profile st tok true).2 = ⟨500, .msg "DB error"⟩ ∧
    (profile st tok true).1.sessions = st.sessions ∧
    (profile st tok true).1 = st := by
  rw [profile_db_error h]
  exact ⟨rfl, rfl, rfl⟩

/-- Witness for C10 at a concrete session entry. -/
theorem profile_db_failure_returns_500_witness :
    (profile ⟨dbA, [("tok-1", "ada@example.com")]⟩ "tok-1" true).2 =
      ⟨500, .msg "DB error"⟩ ∧
    (profile ⟨dbA, [("tok-1", "ada@example.com")]⟩ "tok-1" true).1.sessions =
      [("tok-1", "ada@example.com")] ∧
    (profile ⟨dbA, [("tok-1", "ada@example.com")]⟩ "tok-1" true).1 =
      ⟨dbA, [("tok-1", "ada@example.com")]⟩ :=
  profile_db_failure_returns_500 ⟨dbA, [("tok-1", "ada@example.com")]⟩
    "tok-1" "ada@example.com" (by decide)

/-- C3: the token minted by a login that follows a registration resolves
via profile to exactly the stored record that registration created; a
token absent from the session map gets 401; a token whose email no longer
has a stored record gets 404. -/
theorem profile_resolves_registration
    (st : ServerState) (r : StudentReq) (now : Nat)
    (hfresh : findByEmail st.db r.email = none)
    (st₂ : ServerState) (tok₂ : String) (f₂ : Bool)
    (habs : lookupSession st₂.sessions tok₂ = none)
    (st₃ : ServerState) (tok₃ em₃ : String)
    (hmap : lookupSession st₃.sessions tok₃ = some em₃)
    (hgone : findByEmail st₃.db em₃ = none) :
    (login { st with db := (register st.db r).1 } r.email r.password now).2 =
      ⟨200, .token (mkToken r.email now)⟩ ∧
    profile (login { st with db := (register st.db r).1 } r.email r.password now).1
        (mkToken r.email now) false =
      ((login { st with db := (register st.db r).1 } r.email r.password now).1,
        ⟨200, .profile (insertedRow st.db r.firstName r.lastName r.username
          r.email r.contact (bcryptHash r.password))⟩) ∧
    profile st₂ tok₂ f₂ = (st₂, ⟨401, .msg "Unauthorized"⟩) ∧
    profile st₃ tok₃ false = (st₃, ⟨404, .msg "User not found"⟩) := by
  have hdb1 : findByEmail ({ st with db := (register st.db r).1 } : ServerState).db
      r.email = some (insertedRow st.db r.firstName r.lastName r.username
        r.email r.contact (bcryptHash r.password)) := by
    show findByEmail (register st.db r).1 r.email = _
    rw [register_fresh hfresh]
    exact findByEmail_insert_self st.db r.firstName r.lastName r.username
      r.email r.contact (bcryptHash r.password) hfresh
  have hcmp : bcryptCompare r.password
      (insertedRow st.db r.firstName r.lastName r.username r.email r.contact
        (bcryptHash r.password)).password = true := by
    simp [bcryptCompare, insertedRow]
  rw [login_good_password hdb1 hcmp]
  refine ⟨rfl, ?_, profile_no_token habs, profile_no_record hmap hgone⟩
  exact profile_found
    (by unfold lookupSession; rw [List.find?_cons_of_pos _ (by simp)]; rfl)
    hdb1

/-- Witness for C3: register `reqA` on the fresh state and walk the
login/profile pipeline; the 401 and 404 legs use concrete session maps. -/
theorem profile_resolves_registration_witness :
    (login { initState with db := (register initState.db reqA).1 }
        reqA.email reqA.password 5).2 =
      ⟨200, .token (mkToken reqA.email 5)⟩ ∧
    profile (login { initState with db := (register initState.db reqA).1 }
        reqA.email reqA.password 5).1 (mkToken reqA.email 5) false =
      ((login { initState with db := (register initState.db reqA).1 }
          reqA.email reqA.password 5).1,
        ⟨200, .profile (insertedRow initState.db reqA.firstName reqA.lastName
          reqA.username reqA.email reqA.contact (bcryptHash reqA.password))⟩) ∧
    profile ⟨dbA, []⟩ "zz" false = (⟨dbA, []⟩, ⟨401, .msg "Unauthorized"⟩) ∧
    profile ⟨⟨[], 0⟩, [("t3", "gone@example.com")]⟩ "t3" false =
      (⟨⟨[], 0⟩, [("t3", "gone@example.com")]⟩,
        ⟨404, .msg "User not found"⟩) :=
  profile_resolves_registration initState reqA 5 (by decide)
    ⟨dbA, []⟩ "zz" false (by decide)
    ⟨⟨[], 0⟩, [("t3", "gone@example.com")]⟩ "t3" "gone@example.com"
    (by decide) (by decide)

/-- C4: the list endpoint returns every stored row projected to
(id, firstName, lastName, email, contact) — the projection carries no
password field — and after a successful registration the projected new
record occurs exactly once in the listed rows. -/
theorem list_projects_without_password
    (db : DB) (r : StudentReq) (hwf : WF db)
    (hfresh : findByEmail db r.email = none) :
    listStudents db = ⟨200, .studentList (db.rows.map project)⟩ ∧
    (∀ s : Student,
      project s = (s.id, s.firstName, s.lastName, s.email, s.contact)) ∧
    ((register db r).1.rows.map project).count
      (project (insertedRow db r.firstName r.lastName r.username r.email
        r.contact (bcryptHash r.password))) = 1 := by
  refine ⟨rfl, fun s => rfl, ?_⟩
  rw [register_fresh hfresh, dbInsert_rows, List.map_append,
    List.count_append]
  have h0 : (db.rows.map project).count
      (project (insertedRow db r.firstName r.lastName r.username r.email
        r.contact (bcryptHash r.password))) = 0 := by
    rw [List.count_eq_zero]
    intro hmem
    rw [List.mem_map] at hmem
    obtain ⟨s, hs, hproj⟩ := hmem
    have hid : s.id = db.seq + 1 := congrArg Prod.fst hproj
    have := hwf.2.2 s hs
    omega
  rw [h0]
  simp [project, insertedRow]

/-- Witness for C4: list `dbA` and register `reqB` into it. -/
theorem list_projects_without_password_witness :
    listStudents dbA = ⟨200, .studentList (dbA.rows.map project)⟩ ∧
    (∀ s : Student,
      project s = (s.id, s.firstName, s.lastName, s.email, s.contact)) ∧
    ((register dbA reqB).1.rows.map project).count
      (project (insertedRow dbA reqB.firstName reqB.lastName reqB.username
        reqB.email reqB.contact (bcryptHash reqB.password))) = 1 :=
  list_projects_without_password dbA reqB (by decide) (by decide)

lemma deleteStudent_noop (db : DB) (id : Nat)
    (h : ∀ s ∈ db.rows, s.id ≠ id) :
    deleteStudent db id = (db, ⟨200, .msg "Deleted successfully"⟩) := by
  unfold deleteStudent
  rw [List.filter_eq_self.2 (fun a ha => by simpa using h a ha)]

/-- C5 counterexample: on the two-row table `dbAB`, updating row 2 with
payload `reqA` — whose email belongs to row 1 — does not overwrite the
row and does not answer the generic success message: the UNIQUE email
column makes the UPDATE abort with 500 "Update error" and zero rows
change. -/
theorem update_nonexistent_counterexample :
    updateStudent dbAB 2 reqA = (dbAB, ⟨500, .msg "Update error"⟩) ∧
    (updateStudent dbAB 2 reqA).2 ≠
      ⟨200, .msg "Student updated successfully"⟩ ∧
    (updateStudent dbAB 2 reqA).1.rows.find? (fun s => s.id == 2) =
      some ⟨2, "Bob", "Byrne", "bob", "bob@example.com", "0918", "pw2"⟩ := by
  refine ⟨?_, by decide, by decide⟩
  decide

/-- C5 (amended): provided the payload's email does not duplicate a
different row's email, the update endpoint overwrites all mutable columns
of the row whose id matches and leaves every other row unchanged; when no
row matches the identifier it returns the generic success message and
changes zero rows, with no existence check. -/
theorem update_overwrites_unless_email_conflict
    (db : DB) (id : Nat) (r : StudentReq) :
    ((∀ s ∈ db.rows, s.id ≠ id → s.email ≠ r.email) →
      (updateStudent db id r).2 = ⟨200, .msg "Student updated successfully"⟩ ∧
      (updateStudent db id r).1.rows =
        db.rows.map (fun s => if s.id == id then overwriteRow s r else s) ∧
      (∀ s ∈ db.rows, s.id ≠ id → s ∈ (updateStudent db id r).1.rows) ∧
      (∀ s ∈ db.rows, s.id = id →
        overwriteRow s r ∈ (updateStudent db id r).1.rows)) ∧
    ((∀ s ∈ db.rows, s.id ≠ id) →
      updateStudent db id r = (db, ⟨200, .msg "Student updated successfully"⟩)) := by
  constructor
  · intro hno
    have hB : db.rows.any (fun s => !(s.id == id) && s.email == r.email) = false := by
      rw [List.any_eq_false]
      intro s hs
      simp only [Bool.and_eq_true, Bool.not_eq_eq_eq_not, Bool.not_true,
        beq_eq_false_iff_ne, beq_iff_eq, not_and]
      exact hno s hs
    unfold updateStudent
    rw [hB, Bool.and_false, if_neg (by simp)]
    refine ⟨rfl, rfl, ?_, ?_⟩
    · intro s hs hid
      exact List.mem_map.2 ⟨s, hs, by simp [hid]⟩
    · intro s hs hid
      exact List.mem_map.2 ⟨s, hs, by simp [hid]⟩
  · intro hall
    have hA : db.rows.any (fun s => s.id == id) = false := by
      rw [List.any_eq_false]
      intro s hs
      simpa using hall s hs
    have hrows : db.rows.map
        (fun s => if s.id == id then overwriteRow s r else s) = db.rows := by
      have h1 : db.rows.map (fun s => if s.id == id then overwriteRow s r else s)
          = db.rows.map (fun s => s) :=
        List.map_congr_left (fun s hs => by simp [hall s hs])
      rw [h1]
      simp
    unfold updateStudent
    rw [hA, Bool.false_and, if_neg (by simp), hrows]

/-- Witness for the amended C5: a conflict-free overwrite of row 1 of
`dbAB`, and a no-op update of the absent id 99. -/
theorem update_overwrites_unless_email_conflict_witness :
    ((updateStudent dbAB 1 reqC).2 =
        ⟨200, .msg "Student updated successfully"⟩ ∧
      (updateStudent dbAB 1 reqC).1.rows =
        dbAB.rows.map (fun s => if s.id == 1 then overwriteRow s reqC else s) ∧
      (∀ s ∈ dbAB.rows, s.id ≠ 1 → s ∈ (updateStudent dbAB 1 reqC).1.rows) ∧
      (∀ s ∈ dbAB.rows, s.id = 1 →
        overwriteRow s reqC ∈ (updateStudent dbAB 1 reqC).1.rows)) ∧
    updateStudent dbAB 99 reqC =
      (dbAB, ⟨200, .msg "Student updated successfully"⟩) :=
  ⟨(update_overwrites_unless_email_conflict dbAB 1 reqC).1 (by decide),
    (update_overwrites_unless_email_conflict dbAB 99 reqC).2 (by decide)⟩

/-- C6: deleting an id removes the matching row — it no longer appears in
the rows the list endpoint projects — leaves every other row present and
unchanged, and a second delete of the same id still reports success while
changing nothing. -/
theorem delete_removes_row_idempotently (db : DB) (id : Nat) :
    (deleteStudent db id).2 = ⟨200, .msg "Deleted successfully"⟩ ∧
    listStudents (deleteStudent db id).1 =
      ⟨200, .studentList ((deleteStudent db id).1.rows.map project)⟩ ∧
    (∀ x ∈ (deleteStudent db id).1.rows.map project, x.1 ≠ id) ∧
    (∀ s ∈ db.rows, s.id ≠ id → s ∈ (deleteStudent db id).1.rows) ∧
    (∀ s ∈ (deleteStudent db id).1.rows, s ∈ db.rows) ∧
    deleteStudent (deleteStudent db id).1 id =
      ((deleteStudent db id).1, ⟨200, .msg "Deleted successfully"⟩) := by
  refine ⟨rfl, rfl, ?_, ?_, ?_, ?_⟩
  · intro x hx
    rw [List.mem_map] at hx
    obtain ⟨s, hs, rfl⟩ := hx
    simp only [deleteStudent, List.mem_filter, Bool.not_eq_eq_eq_not,
      Bool.not_true, beq_eq_false_iff_ne] at hs
    exact hs.2
  · intro s hs hid
    simp only [deleteStudent, List.mem_filter]
    exact ⟨hs, by simp [hid]⟩
  · intro s hs
    simp only [deleteStudent, List.mem_filter] at hs
    exact hs.1
  · exact deleteStudent_noop _ id (fun s hs => by
      simp only [deleteStudent, List.mem_filter, Bool.not_eq_eq_eq_not,
        Bool.not_true, beq_eq_false_iff_ne] at hs
      exact hs.2)

/-- Witness for C6: delete id 1 from `dbAB` twice. -/
theorem delete_removes_row_idempotently_witness :
    (deleteStudent dbAB 1).2 = ⟨200, .msg "Deleted successfully"⟩ ∧
    listStudents (deleteStudent dbAB 1).1 =
      ⟨200, .studentList ((deleteStudent dbAB 1).1.rows.map project)⟩ ∧
    (∀ x ∈ (deleteStudent dbAB 1).1.rows.map project, x.1 ≠ 1) ∧
    (∀ s ∈ dbAB.rows, s.id ≠ 1 → s ∈ (deleteStudent dbAB 1).1.rows) ∧
    (∀ s ∈ (deleteStudent dbAB 1).1.rows, s ∈ dbAB.rows) ∧
    deleteStudent (deleteStudent dbAB 1).1 1 =
      ((deleteStudent dbAB 1).1, ⟨200, .msg "Deleted successfully"⟩) :=
  delete_removes_row_idempotently dbAB 1

/-- C8: for a fresh email the students-create endpoint stores the
supplied plaintext password verbatim in the new row and answers with the
newly assigned id, while the register endpoint stores the bcrypt digest
in place of the plaintext — and the digest is never the plaintext
itself. -/
theorem create_inserts_plaintext_password
    (db : DB) (r : StudentReq) (hfresh : findByEmail db r.email = none) :
    createStudent db r =
      (⟨db.rows ++ [⟨db.seq + 1, r.firstName, r.lastName, r.username,
          r.email, r.contact, r.password⟩], db.seq + 1⟩,
        ⟨200, .msgId "Student inserted" (db.seq + 1)⟩) ∧
    register db r =
      (⟨db.rows ++ [⟨db.seq + 1, r.firstName, r.lastName, r.username,
          r.email, r.contact, bcryptHash r.password⟩], db.seq + 1⟩,
        ⟨200, .msgId "Registered successfully" (db.seq + 1)⟩) ∧
    bcryptHash r.password ≠ r.password := by
  refine ⟨?_, ?_, ?_⟩
  · rw [createStudent_fresh hfresh]; rfl
  · rw [register_fresh hfresh]; rfl
  · intro hcon
    have hlen := congrArg String.length hcon
    simp only [bcryptHash, String.length_append,
      show ("bcrypt10$" : String).length = 9 from rfl] at hlen
    omega

/-- Witness for C8: create and register `reqB` against `dbA`. -/
theorem create_inserts_plaintext_password_witness :
    createStudent dbA reqB =
      (⟨dbA.rows ++ [⟨dbA.seq + 1, reqB.firstName, reqB.lastName,
          reqB.username, reqB.email, reqB.contact, reqB.password⟩],
          dbA.seq + 1⟩,
        ⟨200, .msgId "Student inserted" (dbA.seq + 1)⟩) ∧
    register dbA reqB =
      (⟨dbA.rows ++ [⟨dbA.seq + 1, reqB.firstName, reqB.lastName,
          reqB.username, reqB.email, reqB.contact,
          bcryptHash reqB.password⟩], dbA.seq + 1⟩,
        ⟨200, .msgId "Registered successfully" (dbA.seq + 1)⟩) ∧
    bcryptHash reqB.password ≠ reqB.password :=
  create_inserts_plaintext_password dbA reqB (by decide)

/-- C9: the submit handler dispatches to update when the editing id is
non-null and to add otherwise, and always resets every form field to the
empty string and the editing id to null — the result does not depend on
whether the dispatched network call succeeded. -/
theorem submit_dispatches_and_always_resets
    (form : StudentReq) (editId : Option Nat) (id : Nat) (ok ok' : Bool) :
    (handleSubmit form (some id) ok).1 = SubmitAction.update id form ∧
    (handleSubmit form none ok).1 = SubmitAction.add form ∧
    (handleSubmit form editId ok).2.1 = emptyForm ∧
    (handleSubmit form editId ok).2.2 = none ∧
    handleSubmit form editId ok = handleSubmit form editId ok' := by
  cases editId <;> simp [handleSubmit]

/-- Witness for C9 at a concrete form, both editing and not, success and
failure. -/
theorem submit_dispatches_and_always_resets_witness :
    (handleSubmit reqA (some 4) false).1 = SubmitAction.update 4 reqA ∧
    (handleSubmit reqA none false).1 = SubmitAction.add reqA ∧
    (handleSubmit reqA (some 4) false).2.1 = emptyForm ∧
    (handleSubmit reqA (some 4) false).2.2 = none ∧
    handleSubmit reqA (some 4) false = handleSubmit reqA (some 4) true :=
  submit_dispatches_and_always_resets reqA (some 4) 4 false true

end StudentApp
